import Mathlib

/- Formal model of the youtube-stream-trimmer orchestration core
   (src/app_new.py), shallowly embedded in Lean. -/

/-- Boolean test that `p` is a prefix of the second list (character-wise). -/
def startsWithL : List Char → List Char → Bool
  | [], _ => true
  | _ :: _, [] => false
  | p :: ps, c :: cs => p == c && startsWithL ps cs

/-- Boolean substring search: does `pat` occur contiguously in the list?
Models the Python membership test `pat in s` (and `re.search` of a literal
pattern). -/
def hasSubL (pat : List Char) : List Char → Bool
  | [] => startsWithL pat []
  | c :: cs => startsWithL pat (c :: cs) || hasSubL pat cs

/-- String-level substring test, models Python `pat in s`. -/
def strHasSub (s pat : String) : Bool := hasSubL pat.data s.data

/-- ASCII lower-casing of one character; models Python `str.lower()` on the
ASCII texts the orchestrator compares (keywords and tool output). -/
def asciiLowerChar (c : Char) : Char :=
  if 65 ≤ c.toNat ∧ c.toNat ≤ 90 then Char.ofNat (c.toNat + 32) else c

/-- Lower-cased character list of a string, models `s.lower()`. -/
def strLowerData (s : String) : List Char := s.data.map asciiLowerChar

/-- Literal cores of the four regular expressions in `is_valid_youtube_url`.
Each pattern is a literal string preceded by optional groups
`(?:https?://)?(?:www\.)?`, so `re.search` of the pattern succeeds exactly when
the literal core occurs as a substring of the URL. -/
def YOUTUBE_PATTERN_CORES : List String :=
  ["youtube.com", "youtu.be", "youtube.com/live", "youtube.com/shorts"]

/-- Model of `is_valid_youtube_url`: `any(re.search(pattern, url) for pattern in
youtube_patterns)`, with each search reduced to its substring test. -/
def is_valid_youtube_url (url : String) : Bool :=
  YOUTUBE_PATTERN_CORES.any (fun p => strHasSub url p)

/-- The retriable-error keyword list of `run_ytdlp_with_retry` (the worker
`run_ytdlp` repeats the identical list). -/
def RETRIABLE_KEYWORDS : List String :=
  ["sign in", "bot", "confirm", "cookies", "authentication",
   "requested format", "not available", "format is not",
   "no video formats", "unavailable"]

/-- Classification `any(kw in text_lower for kw in [...])` where `text_lower`
is the lower-cased captured output. -/
def is_retriable_text (t : String) : Bool :=
  RETRIABLE_KEYWORDS.any (fun kw => hasSubL kw.data (strLowerData t))

/-- The ordered player-client strategy table (`PLAYER_CLIENT_STRATEGIES`);
`none` is the final no-override default entry. -/
def PLAYER_CLIENT_STRATEGIES : List (Option String) :=
  [some "web_creator", some "ios", some "android", some "mweb",
   some "tv_embedded", some "mediaconnect", none]

/-- Result of a completed `subprocess.run` invocation. -/
structure ProcResult where
  returncode : Int
  stdout : String
  stderr : String
deriving Repr, DecidableEq

/-- Outcome of one attempt inside `run_ytdlp_with_retry`: the subprocess either
finishes (with some exit code) or raises `subprocess.TimeoutExpired`. -/
inductive AttemptOutcome where
  | finished (r : ProcResult)
  | timedOut
deriving Repr, DecidableEq

/-- Observable trace of `run_ytdlp_with_retry`: how many strategies were
attempted, how many seconds were spent in the fixed inter-retry backoff, and
the returned `(success, result)` pair. -/
structure RetryTrace where
  attempts : Nat
  sleepSecs : Nat
  success : Bool
  result : Option ProcResult
deriving Repr, DecidableEq

/-- Loop body of `run_ytdlp_with_retry`, recursing over the remaining strategy
entries; `i` is the current index into the table, `oracle i` the outcome of
invoking yt-dlp with strategy `i`, and `last` the running `last_result`. -/
def run_retry_from (oracle : Nat → AttemptOutcome) :
    Nat → List (Option String) → Option ProcResult → RetryTrace
  | _, [], last => { attempts := 0, sleepSecs := 0, success := false, result := last }
  | i, _ :: rest, _ =>
    match oracle i with
    | AttemptOutcome.finished r =>
      if r.returncode == 0 then
        { attempts := 1, sleepSecs := 0, success := true, result := some r }
      else if is_retriable_text r.stderr then
        let t := run_retry_from oracle (i + 1) rest (some r)
        { attempts := t.attempts + 1, sleepSecs := t.sleepSecs + 2,
          success := t.success, result := t.result }
      else
        { attempts := 1, sleepSecs := 0, success := false, result := some r }
    | AttemptOutcome.timedOut =>
      let t := run_retry_from oracle (i + 1) rest none
      { attempts := t.attempts + 1, sleepSecs := t.sleepSecs,
        success := t.success, result := t.result }

/-- Model of `run_ytdlp_with_retry` over the full strategy table. -/
def run_ytdlp_with_retry (oracle : Nat → AttemptOutcome) : RetryTrace :=
  run_retry_from oracle 0 PLAYER_CLIENT_STRATEGIES none

/-- One entry of a Piped `audioStreams`/`videoStreams` list. `none` fields model
missing dictionary keys (or falsy values where the code coerces them). -/
structure PipedStream where
  url : Option String
  bitrate : Option Nat
  mimeType : String
  height : Option Nat
  fps : Option Nat
deriving Repr, DecidableEq

/-- A parsed JSON payload returned by one Piped instance for `/streams/id`.
An `Option` field is `some` exactly when the corresponding key is present. -/
structure PipedPayload where
  title : Option String
  error : Option String
  duration : Option Nat
  thumbnailUrl : Option String
  uploader : Option String
  videoStreams : List PipedStream
  audioStreams : List PipedStream

/-- The dictionary built by `get_video_info_piped` on success. -/
structure PipedInfo where
  title : String
  duration : Nat
  thumbnail : String
  uploader : String
  videoStreams : List PipedStream
  audioStreams : List PipedStream
  piped_instance : String

/-- The fixed ordered mirror endpoint list `PIPED_INSTANCES`. -/
def PIPED_INSTANCES : List String :=
  ["https://pipedapi.kavin.rocks",
   "https://pipedapi.adminforge.de",
   "https://pipedapi.in.projectsegfau.lt",
   "https://api.piped.projectsegfau.lt",
   "https://pipedapi.leptons.xyz"]

/-- The success dictionary of `get_video_info_piped` (`data.get(...)` defaults). -/
def mk_piped_info (d : PipedPayload) (inst : String) : PipedInfo :=
  { title := d.title.getD "Video", duration := d.duration.getD 0,
    thumbnail := d.thumbnailUrl.getD "", uploader := d.uploader.getD "Unknown",
    videoStreams := d.videoStreams, audioStreams := d.audioStreams,
    piped_instance := inst }

/-- Loop of `get_video_info_piped` over a mirror list; `fetch inst` is the
parsed payload `_piped_request(streams path, inst)` returned by that
instance, `none` when the request failed. -/
def get_video_info_piped_from (fetch : String → Option PipedPayload) :
    List String → Option PipedInfo
  | [] => none
  | inst :: rest =>
    match fetch inst with
    | some d =>
      if d.title.isSome then some (mk_piped_info d inst)
      else get_video_info_piped_from fetch rest
    | none => get_video_info_piped_from fetch rest

/-- Model of `get_video_info_piped` over the fixed instance list. -/
def get_video_info_piped (fetch : String → Option PipedPayload) : Option PipedInfo :=
  get_video_info_piped_from fetch PIPED_INSTANCES

/-- Modelled from the spec for the refinement statement of the mirror resolver:
the first mirror (in order) whose payload contains a title field, together with
that payload; `none` on exhaustion. -/
def firstTitledMirror (fetch : String → Option PipedPayload) :
    List String → Option (String × PipedPayload)
  | [] => none
  | inst :: rest =>
    match fetch inst with
    | some d => if d.title.isSome then some (inst, d) else firstTitledMirror fetch rest
    | none => firstTitledMirror fetch rest

/-- Candidate bonus in the audio-selection loop:
`1000 if ("mp4" in mime or "m4a" in mime) else 0`. -/
def audio_mime_bonus (mime : String) : Nat :=
  if strHasSub mime "mp4" || strHasSub mime "m4a" then 1000 else 0

/-- Incumbent bonus on the right side of the audio comparison:
`(1000 if best_audio and ("mp4" in best_audio.get("mimeType","")) else 0)`.
Note it tests only "mp4", unlike the candidate bonus. -/
def incumbent_audio_bonus : Option PipedStream → Nat
  | some b => if strHasSub b.mimeType "mp4" then 1000 else 0
  | none => 0

/-- Audio-selection loop of `get_best_stream_urls`: `best` and `bbr` are the
running `best_audio` and `best_audio_bitrate`. -/
def pick_best_audio_from :
    List PipedStream → Option PipedStream → Nat → Option PipedStream × Nat
  | [], best, bbr => (best, bbr)
  | s :: rest, best, bbr =>
    if s.url.isSome then
      let br := s.bitrate.getD 0
      if br + audio_mime_bonus s.mimeType > bbr + incumbent_audio_bonus best then
        pick_best_audio_from rest (some s) br
      else
        pick_best_audio_from rest best bbr
    else pick_best_audio_from rest best bbr

/-- The chosen audio stream (`best_audio` after the loop). -/
def pick_best_audio (streams : List PipedStream) : Option PipedStream :=
  (pick_best_audio_from streams none 0).1

/-- Effective frame rate of a stream: `s.get("fps", 30) or 30`. -/
def effective_fps (s : PipedStream) : Nat :=
  match s.fps with
  | none => 30
  | some 0 => 30
  | some n => n

/-- Video candidate score: `h * 100 + fps + mime_bonus`. -/
def video_score (s : PipedStream) : Nat :=
  s.height.getD 0 * 100 + effective_fps s +
    (if strHasSub s.mimeType "mp4" then 1000 else 0)

/-- Video-selection loop of `get_best_stream_urls`; `bscore` is the running
`best_video_score` (initially -1). -/
def pick_best_video_from (maxHeight : Nat) :
    List PipedStream → Option PipedStream → Int → Option PipedStream × Int
  | [], best, bscore => (best, bscore)
  | s :: rest, best, bscore =>
    if s.url.isSome then
      if s.height.getD 0 ≤ maxHeight then
        if bscore < (video_score s : Int) then
          pick_best_video_from maxHeight rest (some s) (video_score s)
        else pick_best_video_from maxHeight rest best bscore
      else pick_best_video_from maxHeight rest best bscore
    else pick_best_video_from maxHeight rest best bscore

/-- The chosen video stream (`best_video` after the loop). -/
def pick_best_video (streams : List PipedStream) (maxHeight : Nat) : Option PipedStream :=
  (pick_best_video_from maxHeight streams none (-1)).1

/-- The quality ceiling `height_map.get(quality, 9999)` of `get_best_stream_urls`. -/
def height_map (quality : String) : Nat :=
  if quality = "best" then 9999
  else if quality = "1080" then 1080
  else if quality = "720" then 720
  else if quality = "480" then 480
  else 9999

/-- Model of `get_best_stream_urls`: returns `(video_url, audio_url)`. -/
def get_best_stream_urls (info : PipedInfo) (quality : String) (audio_only : Bool) :
    Option String × Option String :=
  let bestAudio := pick_best_audio info.audioStreams
  if audio_only then (none, bestAudio.bind (fun s => s.url))
  else
    let bestVideo := pick_best_video info.videoStreams (height_map quality)
    (bestVideo.bind (fun s => s.url), bestAudio.bind (fun s => s.url))

/-- Audio score named by the specification: bitrate plus the container bonus
(the bonus that favors the widely-compatible mp4/m4a containers). -/
def audio_score (s : PipedStream) : Nat :=
  s.bitrate.getD 0 + audio_mime_bonus s.mimeType

/-- Environment of the worker Piped fallback block: `videoId` is the result of
`extract_video_id(url)` for the task URL, `fetch` the per-mirror payloads for
that video, `ffmpegOk` the success flag returned by
`trim_with_ffmpeg_streams`, and `quality`/`is_audio` the task parameters. -/
structure PipedEnv where
  videoId : Option String
  fetch : String → Option PipedPayload
  ffmpegOk : Bool
  quality : String
  is_audio : Bool

/-- How the strategy/fallback phase of the worker `run_ytdlp` ends: either an
early `return` with status `error` and the given message, or fall-through to
the output-file detection code. -/
inductive WorkerFinal where
  | errored (msg : String)
  | toFileDetection
deriving Repr, DecidableEq

/-- Observable trace of the worker strategy loop: number of player-client
strategies attempted, whether the Piped fallback block was entered, and how
the phase ended. -/
structure WorkerRun where
  strategiesTried : Nat
  pipedInvoked : Bool
  final : WorkerFinal
deriving Repr, DecidableEq

/-- The Piped fallback block of the worker `run_ytdlp` (entered when yt-dlp
failed non-retriably or on the last strategy): every failing path ends with
status `error` and the message shown; a successful direct ffmpeg trim breaks
out to file detection. -/
def piped_fallback (env : PipedEnv) : WorkerFinal :=
  match env.videoId with
  | none => WorkerFinal.errored "Failed to trim video. All methods exhausted."
  | some _ =>
    match get_video_info_piped env.fetch with
    | none => WorkerFinal.errored "Failed to trim video. All methods exhausted."
    | some info =>
      let urls := get_best_stream_urls info env.quality env.is_audio
      if urls.1.isSome || urls.2.isSome then
        if env.ffmpegOk then WorkerFinal.toFileDetection
        else WorkerFinal.errored "Failed to trim video. All methods exhausted."
      else WorkerFinal.errored "Failed to trim video. All methods exhausted."

/-- Result of one `subprocess.Popen` run in the worker: exit code plus the
joined captured output lines (stdout and stderr are merged there). -/
structure PopenResult where
  returncode : Int
  output : String
deriving Repr, DecidableEq

/-- Strategy loop of the worker `run_ytdlp`: on a non-zero exit the error text
is classified; a retriable error below the last index continues with the next
client, every other failure enters the Piped fallback block; exit 0 breaks to
file detection. -/
def worker_loop (run : Nat → PopenResult) (env : PipedEnv) :
    Nat → List (Option String) → WorkerRun
  | _, [] => { strategiesTried := 0, pipedInvoked := false,
               final := WorkerFinal.toFileDetection }
  | i, _ :: rest =>
    let r := run i
    if r.returncode == 0 then
      { strategiesTried := 1, pipedInvoked := false,
        final := WorkerFinal.toFileDetection }
    else if is_retriable_text r.output
        && decide (i < PLAYER_CLIENT_STRATEGIES.length - 1) then
      let t := worker_loop run env (i + 1) rest
      { strategiesTried := t.strategiesTried + 1, pipedInvoked := t.pipedInvoked,
        final := t.final }
    else
      { strategiesTried := 1, pipedInvoked := true, final := piped_fallback env }

/-- The worker strategy/fallback phase over the full strategy table. -/
def run_ytdlp_worker (run : Nat → PopenResult) (env : PipedEnv) : WorkerRun :=
  worker_loop run env 0 PLAYER_CLIENT_STRATEGIES

/-- Lookup of a file size in a directory listing (name, size in bytes);
`none` models `not os.path.exists`. -/
def dirLookup (dir : List (String × Nat)) (name : String) : Option Nat :=
  (dir.find? (fun e => e.1 == name)).map (fun e => e.2)

/-- The directory scan `for f in os.listdir(tmpdir): if f.startswith(filename)`. -/
def scan_for_output (dir : List (String × Nat)) (filename : String) : Option String :=
  (dir.find? (fun e => startsWithL filename.data e.1.data)).map (fun e => e.1)

/-- The `actual_file` computation of the worker: the exact output path when it
exists with positive size, otherwise the first directory entry whose name
starts with the requested filename. -/
def find_actual_file (dir : List (String × Nat)) (outName filename : String) :
    Option String :=
  match dirLookup dir outName with
  | some sz => if sz > 0 then some outName else scan_for_output dir filename
  | none => scan_for_output dir filename

/-- Terminal result of the worker file-detection epilogue. -/
inductive TrimFinal where
  | done (filePath : String) (fileSize : Nat)
  | errored (msg : String)
deriving Repr, DecidableEq

/-- File-detection epilogue of the worker `run_ytdlp` after the tool reported
success: missing `actual_file` sets status `error` with
"Failed to create output file"; otherwise the task is finalized as `done`
with the size of the located file. -/
def detect_trim_result (dir : List (String × Nat)) (outName filename : String) :
    TrimFinal :=
  match find_actual_file dir outName filename with
  | none => TrimFinal.errored "Failed to create output file"
  | some f =>
    match dirLookup dir f with
    | some sz => TrimFinal.done f sz
    | none => TrimFinal.errored "Failed to create output file"

/-- The slice of a task-registry entry the modelled operations touch. -/
structure TaskRec where
  status : String
  errMsg : Option String
  tmpdir : Option String
deriving Repr, DecidableEq

/-- Registry lookup `tasks.get(task_id)` on the association-list model of the
`tasks` dictionary. -/
def tasks_lookup (l : List (String × TaskRec)) (id : String) : Option TaskRec :=
  (l.find? (fun e => e.1 == id)).map (fun e => e.2)

/-- A Python item write `tasks[task_id][...] = v`: updates the entry when the
key is present, raises `KeyError` (modelled as `Except.error`) otherwise. -/
def task_write (l : List (String × TaskRec)) (id : String) (f : TaskRec → TaskRec) :
    Except String (List (String × TaskRec)) :=
  if (tasks_lookup l id).isSome then
    Except.ok (l.map (fun e => if e.1 == id then (e.1, f e.2) else e))
  else Except.error "KeyError"

/-- The worker epilogue around its final state write: the success write
(`tasks[task_id][status] = done` etc.) runs under the `try`; when it
raises, the blanket `except` handler performs
`tasks[task_id][status] = error`, which is itself unguarded, so its own
`KeyError` propagates out of the worker. -/
def worker_final_write (l : List (String × TaskRec)) (id : String) :
    Except String (List (String × TaskRec)) :=
  match task_write l id (fun t => { t with status := "done" }) with
  | Except.ok l2 => Except.ok l2
  | Except.error _ =>
    task_write l id (fun t => { t with status := "error",
                                       errMsg := some "KeyError" })

/-- The quality allow-set of `start_trim`. -/
def QUALITY_ALLOWED : List String := ["best", "1080", "720", "480", "audio"]

/-- Synchronous validation prologue of `start_trim`: returns
`some errorMessage` (an HTTP 400 response, no task created) or `none`
(validation passed, a task will be created). Times are modelled as exact
rationals. -/
def start_trim_check (url : String) (startTime endTime : ℚ) (quality : String) :
    Option String :=
  if url = "" ∨ is_valid_youtube_url url = false then some "Invalid YouTube URL"
  else if startTime < 0 ∨ endTime ≤ startTime then some "Invalid time parameters"
  else if ¬ quality ∈ QUALITY_ALLOWED then some "Invalid quality"
  else none

/-- Registry effect of `start_trim`: the task entry is inserted only after
validation passes. -/
def start_trim_tasks (tasks : List (String × TaskRec)) (url : String)
    (startTime endTime : ℚ) (quality newId tmpdir : String) :
    List (String × TaskRec) :=
  match start_trim_check url startTime endTime quality with
  | some _ => tasks
  | none => (newId, { status := "starting", errMsg := none,
                      tmpdir := some tmpdir }) :: tasks

/-- URL checks at the top of `get_video_info` (the GetMetadata endpoint). -/
def get_video_info_url_check (url : String) : Option String :=
  if url = "" then some "URL is required"
  else if is_valid_youtube_url url = false then some "Invalid YouTube URL"
  else none

/-- State acted on by `cleanup_task`: the task registry and the set of
existing temporary directories on disk. -/
structure CleanupState where
  tasks : List (String × TaskRec)
  dirs : List String
deriving Repr, DecidableEq

/-- Model of `tasks.pop(task_id, None)`: the looked-up entry (or `none`) and
the registry without that key. -/
def tasks_pop (l : List (String × TaskRec)) (id : String) :
    Option TaskRec × List (String × TaskRec) :=
  (tasks_lookup l id, l.filter (fun e => !(e.1 == id)))

/-- Disk effect of `cleanup_task`: `shutil.rmtree(task[tmpdir])` runs only
when the popped entry exists and names a directory present on disk. -/
def cleanup_dirs (dirs : List String) : Option TaskRec → List String
  | some t =>
    match t.tmpdir with
    | some d => if d ∈ dirs then dirs.filter (fun x => !(x == d)) else dirs
    | none => dirs
  | none => dirs

/-- Model of `cleanup_task`: pops the registry entry, removes its temp
directory when present on disk (`shutil.rmtree`, exceptions swallowed), and
always acknowledges with ok. -/
def cleanup_task (s : CleanupState) (id : String) : CleanupState × Bool :=
  match tasks_pop s.tasks id with
  | (popped, rest) => ({ tasks := rest, dirs := cleanup_dirs s.dirs popped }, true)

/-- Numeric value of a digit run (most significant first). -/
def digitsVal (ds : List Char) : Nat :=
  ds.foldl (fun a c => a * 10 + (c.toNat - 48)) 0

/-- Attempt to read `\d+:\d+:(\d+\.?\d*)` at the head of the character list
(the part of the `time=` regular expression after the literal marker); the
seconds component is returned as an exact rational. -/
def parse_time_at (cs : List Char) : Option (Nat × Nat × ℚ) :=
  let hs := cs.takeWhile (fun c => c.isDigit)
  let r1 := cs.dropWhile (fun c => c.isDigit)
  if hs.isEmpty then none else
  match r1 with
  | ':' :: r2 =>
    let ms := r2.takeWhile (fun c => c.isDigit)
    let r3 := r2.dropWhile (fun c => c.isDigit)
    if ms.isEmpty then none else
    match r3 with
    | ':' :: r4 =>
      let ss := r4.takeWhile (fun c => c.isDigit)
      let r5 := r4.dropWhile (fun c => c.isDigit)
      if ss.isEmpty then none else
      match r5 with
      | '.' :: r6 =>
        let fs := r6.takeWhile (fun c => c.isDigit)
        some (digitsVal hs, digitsVal ms,
          (digitsVal ss : ℚ) + (digitsVal fs : ℚ) / ((10 : ℚ) ^ fs.length))
      | _ => some (digitsVal hs, digitsVal ms, (digitsVal ss : ℚ))
    | _ => none
  | _ => none

/-- Leftmost match of `re.search` of the pattern `time=(\d+):(\d+):(\d+\.?\d*)`:
scan for an occurrence of the literal `time=` whose tail parses. -/
def find_time_match : List Char → Option (Nat × Nat × ℚ)
  | [] => none
  | c :: cs =>
    if startsWithL "time=".data (c :: cs) then
      match parse_time_at ((c :: cs).drop 5) with
      | some v => some v
      | none => find_time_match cs
    else find_time_match cs

/-- Percent written by the ffmpeg `time=` branch of the worker progress parser
for one output line, when that branch fires: the line must not be claimed by
the earlier pipe-template branch, must contain both markers, the time
expression must match, and the target trim duration must be positive; the
percent is `min(current_sec / trim_duration * 90, 90)`. `none` means this
branch writes no percent for the line. -/
def ffmpeg_progress_pct (line : String) (trimDuration : ℚ) : Option ℚ :=
  if strHasSub line "|" && strHasSub line "%" then none
  else if strHasSub line "time=" && strHasSub line "speed=" then
    match find_time_match line.data with
    | some v =>
      if 0 < trimDuration then
        some (min (((v.1 : ℚ) * 3600 + (v.2.1 : ℚ) * 60 + v.2.2)
          / trimDuration * 90) 90)
      else none
    | none => none
  else none

/-- A worker strategy run whose output carries a terminal (non-retriable)
error: none of the retriable keywords occurs in it. -/
def c1_run : Nat → PopenResult := fun _ =>
  { returncode := 1, output := "ERROR: Private video. HTTP Error 403: Forbidden" }

/-- A fallback environment in which every Piped mirror request fails. -/
def c1_env : PipedEnv :=
  { videoId := some "dQw4w9WgXcQ", fetch := fun _ => none, ffmpegOk := false,
    quality := "best", is_audio := false }

/-- A yt-dlp failure whose stderr carries a bot-detection (retriable) signal. -/
def c2_r1 : ProcResult :=
  { returncode := 1, stdout := "",
    stderr := "ERROR: Sign in to confirm that you are not a bot" }

/-- A yt-dlp failure whose stderr matches no retriable keyword. -/
def c2_r2 : ProcResult :=
  { returncode := 1, stdout := "", stderr := "ERROR: Unsupported URL" }

/-- An attempt oracle: the first strategy fails retriably, each later one
fails non-retriably. -/
def c2_oracle : Nat → AttemptOutcome := fun i =>
  if i = 0 then AttemptOutcome.finished c2_r1 else AttemptOutcome.finished c2_r2

/-- A mirror payload carrying an error field and no title. -/
def c5_payload_err : PipedPayload :=
  { title := none, error := some "Video unavailable", duration := none,
    thumbnailUrl := none, uploader := none, videoStreams := [], audioStreams := [] }

/-- A well-formed mirror payload carrying a title. -/
def c5_payload_ok : PipedPayload :=
  { title := some "Test Video", error := none, duration := some 120,
    thumbnailUrl := some "https://t.example/i.jpg", uploader := some "Chan",
    videoStreams := [], audioStreams := [] }

/-- A mirror oracle: the first instance answers with an error payload, the
second with a title-bearing payload, the rest fail. -/
def c5_fetch : String → Option PipedPayload := fun inst =>
  if inst = "https://pipedapi.kavin.rocks" then some c5_payload_err
  else if inst = "https://pipedapi.adminforge.de" then some c5_payload_ok
  else none

/-- An audio candidate in an m4a container (mimeType marks m4a but not mp4)
with a low bitrate. -/
def c6_a : PipedStream :=
  { url := some "https://a.example/audio1", bitrate := some 100,
    mimeType := "audio/m4a", height := none, fps := none }

/-- An audio candidate in a webm container with a higher raw bitrate but a
lower (bitrate + container bonus) score than `c6_a`. -/
def c6_b : PipedStream :=
  { url := some "https://b.example/audio2", bitrate := some 600,
    mimeType := "audio/webm", height := none, fps := none }

/-- Piped data holding the two audio candidates above (and no video). -/
def c6_info : PipedInfo :=
  { title := "T", duration := 10, thumbnail := "", uploader := "U",
    videoStreams := [], audioStreams := [c6_a, c6_b], piped_instance := "i" }

/-- A conventional aac audio candidate (mp4 container). -/
def c6_a1 : PipedStream :=
  { url := some "https://a.example/aac", bitrate := some 128000,
    mimeType := "audio/mp4", height := none, fps := none }

/-- A 720p mp4 video candidate. -/
def c6_v1 : PipedStream :=
  { url := some "https://v.example/v720", bitrate := none,
    mimeType := "video/mp4", height := some 720, fps := some 30 }

/-- A 1080p mp4 video candidate (above a 720 ceiling). -/
def c6_v2 : PipedStream :=
  { url := some "https://v.example/v1080", bitrate := none,
    mimeType := "video/mp4", height := some 1080, fps := some 60 }

/-- Piped data with both video candidates and the aac audio candidate. -/
def c6_info2 : PipedInfo :=
  { title := "T2", duration := 10, thumbnail := "", uploader := "U",
    videoStreams := [c6_v1, c6_v2], audioStreams := [c6_a1], piped_instance := "i" }

/-- A concrete in-flight task-registry record. -/
def c3_demo_rec : TaskRec :=
  { status := "downloading", errMsg := none, tmpdir := some "/tmp/tmpabc" }

/-- A concrete ffmpeg progress line with both markers. -/
def c8_line : String :=
  "frame=  120 fps= 25 q=-1.0 size=     512kB time=00:00:05 bitrate= 838.9kbits/s speed=1.02x"

/-- The percent the model computes for `c8_line` at a 10-second trim window. -/
def c8_p : ℚ :=
  min ((((0 : Nat) : ℚ) * 3600 + ((0 : Nat) : ℚ) * 60 + ((5 : Nat) : ℚ)) / 10 * 90) 90

theorem startsWithL_iff (p s : List Char) : startsWithL p s = true ↔ p <+: s := by
  induction p generalizing s with
  | nil => simp [startsWithL]
  | cons a ps ih =>
    cases s with
    | nil => simp [startsWithL]
    | cons b cs =>
      rw [startsWithL, Bool.and_eq_true, beq_iff_eq, ih, List.cons_prefix_cons]

theorem hasSubL_iff (p s : List Char) : hasSubL p s = true ↔ p <:+: s := by
  induction s with
  | nil =>
    rw [hasSubL, startsWithL_iff]
    simp [List.prefix_nil, List.infix_nil]
  | cons c cs ih =>
    rw [hasSubL, Bool.or_eq_true, startsWithL_iff, ih, List.infix_cons_iff]

/-- C10: URL validation is substring-based, not shape-based: any string that
contains "youtube.com" or "youtu.be" anywhere passes `is_valid_youtube_url`,
so neither the GetMetadata URL check nor the StartTrim URL check rejects it
with the URL-shape error. -/
theorem c10_url_validation_substring (url : String) (s e : ℚ) (q : String)
    (h : "youtube.com".data <:+: url.data ∨ "youtu.be".data <:+: url.data) :
    is_valid_youtube_url url = true ∧
    get_video_info_url_check url = none ∧
    ∀ msg, start_trim_check url s e q = some msg → msg ≠ "Invalid YouTube URL" := by
  have hvalid : is_valid_youtube_url url = true := by
    rcases h with h | h
    · simp only [is_valid_youtube_url, YOUTUBE_PATTERN_CORES, List.any_cons,
        Bool.or_eq_true, strHasSub]
      exact Or.inl ((hasSubL_iff _ _).mpr h)
    · simp only [is_valid_youtube_url, YOUTUBE_PATTERN_CORES, List.any_cons,
        Bool.or_eq_true, strHasSub]
      exact Or.inr (Or.inl ((hasSubL_iff _ _).mpr h))
  have hne : url ≠ "" := by
    intro h0
    rw [h0] at hvalid
    exact absurd hvalid (by decide)
  refine ⟨hvalid, ?_, ?_⟩
  · rw [get_video_info_url_check, if_neg hne, hvalid]
    simp
  · intro msg hmsg
    rw [start_trim_check, if_neg (by simp [hne, hvalid])] at hmsg
    split_ifs at hmsg
    · obtain rfl : "Invalid time parameters" = msg := Option.some.inj hmsg
      decide
    · obtain rfl : "Invalid quality" = msg := Option.some.inj hmsg
      decide

/-- C10 witness: a non-YouTube URL that merely embeds "youtube.com" in its
query string is accepted by the URL validator and the GetMetadata URL check. -/
theorem c10_url_validation_substring_witness :
    is_valid_youtube_url "https://evil.example/track?src=youtube.com" = true ∧
    get_video_info_url_check "https://evil.example/track?src=youtube.com" = none :=
  ⟨(c10_url_validation_substring "https://evil.example/track?src=youtube.com"
      0 10 "best" (Or.inl (by decide))).1,
   (c10_url_validation_substring "https://evil.example/track?src=youtube.com"
      0 10 "best" (Or.inl (by decide))).2.1⟩

theorem tasks_lookup_filter_self (l : List (String × TaskRec)) (id : String) :
    tasks_lookup (l.filter (fun e => !(e.1 == id))) id = none := by
  induction l with
  | nil => rfl
  | cons e t ih =>
    by_cases h : e.1 == id
    · rw [List.filter_cons, if_neg (by simp [h])]
      exact ih
    · rw [List.filter_cons, if_pos (by simp [h])]
      rw [tasks_lookup, List.find?]
      rw [show (e.1 == id) = false from by simp [h]]
      exact ih

theorem cleanup_task_shape (s : CleanupState) (id : String) :
    (cleanup_task s id).1.tasks = s.tasks.filter (fun e => !(e.1 == id)) ∧
    (cleanup_task s id).2 = true :=
  ⟨rfl, rfl⟩

theorem cleanup_task_not_found (s : CleanupState) (id : String)
    (h : tasks_lookup s.tasks id = none) :
    cleanup_task s id = ({ tasks := s.tasks.filter (fun e => !(e.1 == id)),
                           dirs := s.dirs }, true) := by
  unfold cleanup_task tasks_pop
  rw [h]
  rfl

/-- C9: cleanup is idempotent: the first call acknowledges and removes the
registry entry; the second call still acknowledges, changes nothing, and the
registry holds no entry for the id after either call. -/
theorem c9_cleanup_idempotent (s : CleanupState) (id : String) :
    (cleanup_task s id).2 = true ∧
    tasks_lookup (cleanup_task s id).1.tasks id = none ∧
    cleanup_task (cleanup_task s id).1 id = ((cleanup_task s id).1, true) := by
  obtain ⟨htasks, hack⟩ := cleanup_task_shape s id
  have hnone : tasks_lookup (cleanup_task s id).1.tasks id = none := by
    rw [htasks]; exact tasks_lookup_filter_self s.tasks id
  refine ⟨hack, hnone, ?_⟩
  rw [cleanup_task_not_found _ _ hnone]
  have hfix : (cleanup_task s id).1.tasks.filter (fun e => !(e.1 == id)) =
      (cleanup_task s id).1.tasks := by
    rw [htasks]
    apply List.filter_eq_self.mpr
    intro a ha
    exact (List.mem_filter.mp ha).2
  rw [hfix]

/-- C3 (code bug): when the registry entry was already removed by cleanup or
the staleness sweep, the worker final state write is not a tolerated no-op:
`tasks[task_id][status] = done` raises KeyError, and the blanket handler
own `tasks[task_id][status] = error` write raises KeyError again, which
propagates out of the worker; with the entry still present the write
succeeds. -/
theorem c3_final_write_keyerror :
    worker_final_write [] "task-1" = Except.error "KeyError" ∧
    worker_final_write [("other-task", c3_demo_rec)] "task-1" =
      Except.error "KeyError" ∧
    worker_final_write [("task-1", c3_demo_rec)] "task-1" =
      Except.ok [("task-1", { c3_demo_rec with status := "done" })] :=
  ⟨rfl, rfl, rfl⟩

/-- C4 (code bug): after a reported tool success, a zero-size file at the
exact expected output path is still picked up by the filename-prefix scan and
the task is finalized as done with size 0, not as the
"Failed to create output file" error the specification requires; a truly
missing artifact does produce that error, and a non-empty artifact is done. -/
theorem c4_zero_size_artifact :
    detect_trim_result [("clip.mp4", 0)] "clip.mp4" "clip" =
      TrimFinal.done "clip.mp4" 0 ∧
    detect_trim_result [] "clip.mp4" "clip" =
      TrimFinal.errored "Failed to create output file" ∧
    detect_trim_result [("clip.mp4", 1024)] "clip.mp4" "clip" =
      TrimFinal.done "clip.mp4" 1024 :=
  ⟨rfl, rfl, rfl⟩

/-- C8: whenever the ffmpeg `time=` branch of the progress parser reports a
percent for a line, that percent equals
`min(elapsed / trim_duration * 90, 90)` for the parsed `h:m:s(.f)` elapsed
time, and in particular never exceeds 90. -/
theorem c8_ffmpeg_pct_capped (line : String) (d p : ℚ)
    (h : ffmpeg_progress_pct line d = some p) :
    (∃ v, find_time_match line.data = some v ∧ 0 < d ∧
      p = min (((v.1 : ℚ) * 3600 + (v.2.1 : ℚ) * 60 + v.2.2) / d * 90) 90) ∧
    p ≤ 90 := by
  rw [ffmpeg_progress_pct] at h
  by_cases h1 : (strHasSub line "|" && strHasSub line "%") = true
  · rw [if_pos h1] at h; cases h
  · rw [if_neg h1] at h
    by_cases h2 : (strHasSub line "time=" && strHasSub line "speed=") = true
    · rw [if_pos h2] at h
      cases hm : find_time_match line.data with
      | none => rw [hm] at h; cases h
      | some v =>
        rw [hm] at h
        dsimp only at h
        by_cases hd : 0 < d
        · rw [if_pos hd] at h
          obtain rfl := Option.some.inj h
          exact ⟨⟨v, rfl, hd, rfl⟩, min_le_right _ _⟩
        · rw [if_neg hd] at h; cases h
    · rw [if_neg h2] at h; cases h

/-- C8 witness: a concrete ffmpeg progress line five seconds into a
ten-second trim reports the capped percent for 5/10 of the window. -/
theorem c8_ffmpeg_pct_capped_witness :
    ffmpeg_progress_pct c8_line 10 = some c8_p ∧ c8_p ≤ 90 :=
  ⟨rfl, (c8_ffmpeg_pct_capped c8_line 10 c8_p rfl).2⟩

/-- C7: StartTrim rejects synchronously, before any task is created, every
request with an invalid URL, a negative start, an end not after the start, or
a quality outside the allow-set; and with a valid URL, start 10 and end 5 the
error is exactly "Invalid time parameters" with the registry unchanged. -/
theorem c7_start_trim_validation (url : String) (s e : ℚ) (q : String)
    (tasks : List (String × TaskRec)) (newId tmpdir : String) :
    ((is_valid_youtube_url url = false ∨ s < 0 ∨ e ≤ s ∨ ¬ q ∈ QUALITY_ALLOWED) →
      (start_trim_check url s e q).isSome = true ∧
      start_trim_tasks tasks url s e q newId tmpdir = tasks) ∧
    (is_valid_youtube_url url = true →
      start_trim_check url 10 5 q = some "Invalid time parameters" ∧
      start_trim_tasks tasks url 10 5 q newId tmpdir = tasks) := by
  constructor
  · intro hbad
    have hsome : (start_trim_check url s e q).isSome = true := by
      rw [start_trim_check]
      split_ifs with h1 h2 h3
      · rfl
      · rfl
      · exfalso
        rcases hbad with hb | hb | hb | hb
        · exact h1 (Or.inr hb)
        · exact h2 (Or.inl hb)
        · exact h2 (Or.inr hb)
        · exact hb h3
      · rfl
    refine ⟨hsome, ?_⟩
    rw [start_trim_tasks]
    cases hc : start_trim_check url s e q with
    | none => rw [hc] at hsome; cases hsome
    | some msg => rfl
  · intro hvalid
    have hne : url ≠ "" := by
      intro h0
      rw [h0] at hvalid
      exact absurd hvalid (by decide)
    have hcheck : start_trim_check url 10 5 q = some "Invalid time parameters" := by
      rw [start_trim_check, if_neg (by simp [hne, hvalid]),
        if_pos (Or.inr (by norm_num))]
    refine ⟨hcheck, ?_⟩
    rw [start_trim_tasks, hcheck]

/-- C7 witness: a valid YouTube URL with start 10 and end 5 is rejected with
"Invalid time parameters" and no task entry is added. -/
theorem c7_start_trim_validation_witness :
    start_trim_check "https://www.youtube.com/watch?v=dQw4w9WgXcQ" 10 5 "best" =
      some "Invalid time parameters" ∧
    start_trim_tasks [] "https://www.youtube.com/watch?v=dQw4w9WgXcQ" 10 5 "best"
      "id-1" "/tmp/tmp1" = [] :=
  (c7_start_trim_validation "https://www.youtube.com/watch?v=dQw4w9WgXcQ"
    0 1 "best" [] "id-1" "/tmp/tmp1").2 (by decide)

/-- C2: the retry orchestrator classifies a failed invocation by
case-insensitive substring match against exactly the ten listed keywords; a
match makes it back off 2 seconds and continue with the next strategy, a
non-match stops the retry loop at once with that failure as the result. -/
theorem c2_retry_classification :
    (∀ t : String, is_retriable_text t = true ↔
      ∃ kw, kw ∈ (["sign in", "bot", "confirm", "cookies", "authentication",
                   "requested format", "not available", "format is not",
                   "no video formats", "unavailable"] : List String) ∧
        kw.data <:+: strLowerData t) ∧
    (∀ (oracle : Nat → AttemptOutcome) (i : Nat) (stg : Option String)
        (rest : List (Option String)) (last : Option ProcResult) (r : ProcResult),
      oracle i = AttemptOutcome.finished r → r.returncode ≠ 0 →
      (is_retriable_text r.stderr = true →
        run_retry_from oracle i (stg :: rest) last =
          { attempts := (run_retry_from oracle (i + 1) rest (some r)).attempts + 1,
            sleepSecs := (run_retry_from oracle (i + 1) rest (some r)).sleepSecs + 2,
            success := (run_retry_from oracle (i + 1) rest (some r)).success,
            result := (run_retry_from oracle (i + 1) rest (some r)).result }) ∧
      (is_retriable_text r.stderr = false →
        run_retry_from oracle i (stg :: rest) last =
          { attempts := 1, sleepSecs := 0, success := false,
            result := some r })) := by
  constructor
  · intro t
    rw [is_retriable_text, List.any_eq_true]
    exact exists_congr fun kw => and_congr Iff.rfl (hasSubL_iff _ _)
  · intro oracle i stg rest last r horacle hfail
    have hb : (r.returncode == 0) = false := beq_eq_false_iff_ne.mpr hfail
    constructor
    · intro hret
      rw [run_retry_from, horacle]
      dsimp only
      rw [if_neg (by simp [hb]), if_pos hret]
    · intro hret
      rw [run_retry_from, horacle]
      dsimp only
      rw [if_neg (by simp [hb]), if_neg (by simp [hret])]

/-- C2 witness: a bot-detection stderr is classified retriable and makes the
loop spend a 2-second backoff before the next strategy; an unsupported-URL
stderr stops the loop immediately with one attempt and no backoff. -/
theorem c2_retry_classification_witness :
    is_retriable_text c2_r1.stderr = true ∧
    run_retry_from c2_oracle 0 [some "web_creator", some "ios"] none =
      { attempts := 2, sleepSecs := 2, success := false, result := some c2_r2 } ∧
    run_retry_from c2_oracle 1 [some "ios"] (some c2_r1) =
      { attempts := 1, sleepSecs := 0, success := false, result := some c2_r2 } := by
  have h1 : is_retriable_text c2_r1.stderr = true :=
    (c2_retry_classification.1 c2_r1.stderr).mpr ⟨"sign in", by decide, by decide⟩
  have h3 := (c2_retry_classification.2 c2_oracle 1 (some "ios") [] (some c2_r1)
    c2_r2 rfl (by decide)).2 (by decide)
  have h2 := (c2_retry_classification.2 c2_oracle 0 (some "web_creator")
    [some "ios"] none c2_r1 rfl (by decide)).1 h1
  refine ⟨h1, ?_, h3⟩
  rw [h2,
    show run_retry_from c2_oracle (0 + 1) [some "ios"] (some c2_r1) =
      { attempts := 1, sleepSecs := 0, success := false, result := some c2_r2 }
      from h3]

/-- C5: the mirror resolver queries its ordered mirror list one at a time and
stops at the first payload that contains a title field, returning the
dictionary built from it; a payload without a title (in particular one
carrying an error field) is a non-match and the next mirror is tried;
exhausting every mirror without a title-bearing payload returns null.
Equivalently, the resolver refines the first-titled-mirror selection. -/
theorem c5_mirror_first_titled (fetch : String → Option PipedPayload) :
    (∀ l, get_video_info_piped_from fetch l =
      (firstTitledMirror fetch l).map (fun p => mk_piped_info p.2 p.1)) ∧
    (∀ inst rest d, fetch inst = some d → d.title.isSome = true →
      get_video_info_piped_from fetch (inst :: rest) =
        some (mk_piped_info d inst)) ∧
    (∀ inst rest d, fetch inst = some d → d.error.isSome = true →
      d.title = none →
      get_video_info_piped_from fetch (inst :: rest) =
        get_video_info_piped_from fetch rest) ∧
    (∀ l, (∀ inst, inst ∈ l → ∀ d, fetch inst = some d → d.title = none) →
      get_video_info_piped_from fetch l = none) ∧
    get_video_info_piped fetch = get_video_info_piped_from fetch PIPED_INSTANCES := by
  refine ⟨?_, ?_, ?_, ?_, rfl⟩
  · intro l
    induction l with
    | nil => rfl
    | cons inst rest ih =>
      rw [get_video_info_piped_from, firstTitledMirror]
      cases hf : fetch inst with
      | none => exact ih
      | some d =>
        dsimp only
        by_cases ht : d.title.isSome
        · rw [if_pos ht, if_pos ht]
          rfl
        · rw [if_neg ht, if_neg ht]
          exact ih
  · intro inst rest d hf ht
    rw [get_video_info_piped_from, hf]
    dsimp only
    rw [if_pos ht]
  · intro inst rest d hf _ ht
    rw [get_video_info_piped_from, hf]
    dsimp only
    rw [if_neg (by simp [ht])]
  · intro l hall
    induction l with
    | nil => rfl
    | cons inst rest ih =>
      rw [get_video_info_piped_from]
      cases hf : fetch inst with
      | none =>
        exact ih (fun i hi d hd => hall i (List.mem_cons_of_mem _ hi) d hd)
      | some d =>
        have ht : d.title = none := hall inst (List.mem_cons_self _ _) d hf
        dsimp only
        rw [if_neg (by simp [ht])]
        exact ih (fun i hi d hd => hall i (List.mem_cons_of_mem _ hi) d hd)

/-- C5 witness: with the first mirror answering an error payload, the second
a titled payload and the rest failing, the resolver skips the error payload,
stops at the titled one, and exhaustion of a titleless tail yields null. -/
theorem c5_mirror_first_titled_witness :
    get_video_info_piped_from c5_fetch ["https://pipedapi.adminforge.de"] =
      some (mk_piped_info c5_payload_ok "https://pipedapi.adminforge.de") ∧
    get_video_info_piped_from c5_fetch
        ["https://pipedapi.kavin.rocks", "https://pipedapi.adminforge.de"] =
      get_video_info_piped_from c5_fetch ["https://pipedapi.adminforge.de"] ∧
    get_video_info_piped_from c5_fetch ["https://pipedapi.leptons.xyz"] = none := by
  refine ⟨(c5_mirror_first_titled c5_fetch).2.1 _ _ _ rfl rfl,
          (c5_mirror_first_titled c5_fetch).2.2.1 _ _ _ rfl rfl rfl,
          (c5_mirror_first_titled c5_fetch).2.2.2.1 _ ?_⟩
  intro inst hi d hd
  rw [List.mem_singleton] at hi
  rw [hi] at hd
  exact Option.noConfusion (show (none : Option PipedPayload) = some d from hd)

/-- C1 counterexample: when the very first client strategy fails with a
terminal (non-retriable) error and every mirror request also fails, the
worker does skip the remaining strategies, but it enters the Piped mirror
fallback before setting status error — it does not reach `error` without
invoking the mirror fallback, contrary to the claim. -/
theorem c1_terminal_error_counterexample :
    (c1_run 0).returncode ≠ 0 ∧
    is_retriable_text (c1_run 0).output = false ∧
    run_ytdlp_worker c1_run c1_env =
      { strategiesTried := 1, pipedInvoked := true,
        final := WorkerFinal.errored
          "Failed to trim video. All methods exhausted." } := by
  refine ⟨by decide, by decide, ?_⟩
  rfl

/-- C1 amended: a terminal (non-retriable) failure of the first strategy
skips the remaining client strategies but still invokes the Piped mirror
fallback; the task then ends with whatever the fallback produces — in
particular status `error` with "Failed to trim video. All methods exhausted."
whenever the fallback fails too. -/
theorem c1_terminal_error_invokes_fallback (run : Nat → PopenResult)
    (env : PipedEnv)
    (h1 : ((run 0).returncode == 0) = false)
    (h2 : is_retriable_text (run 0).output = false) :
    run_ytdlp_worker run env =
      { strategiesTried := 1, pipedInvoked := true,
        final := piped_fallback env } := by
  rw [run_ytdlp_worker, PLAYER_CLIENT_STRATEGIES, worker_loop]
  dsimp only
  rw [if_neg (by simp [h1]), if_neg (by simp [h2])]

/-- C1 amended witness: the concrete terminal-failure run with failing
mirrors follows the amended behavior. -/
theorem c1_terminal_error_invokes_fallback_witness :
    run_ytdlp_worker c1_run c1_env =
      { strategiesTried := 1, pipedInvoked := true,
        final := piped_fallback c1_env } :=
  c1_terminal_error_invokes_fallback c1_run c1_env (by decide) (by decide)

/-- C6 counterexample: with an m4a candidate (bitrate 100, container bonus
1000, score 1100) listed before a webm candidate (bitrate 600, no bonus,
score 600), the audio selection returns the webm URL: the incumbent side of
the comparison only grants the bonus for mp4, so the m4a incumbent is
undefended and the chosen candidate does not maximize
(bitrate + container bonus). -/
theorem c6_audio_selection_counterexample :
    (get_best_stream_urls c6_info "best" true).2 = c6_b.url ∧
    c6_a ∈ c6_info.audioStreams ∧
    c6_a.url.isSome = true ∧
    audio_score c6_b < audio_score c6_a ∧
    c6_a.url ≠ c6_b.url := by decide

theorem audio_bonus_eq_of_m4a_implies_mp4 (s : PipedStream)
    (h : strHasSub s.mimeType "m4a" = true → strHasSub s.mimeType "mp4" = true) :
    audio_mime_bonus s.mimeType = incumbent_audio_bonus (some s) := by
  rw [audio_mime_bonus, incumbent_audio_bonus]
  cases hm : strHasSub s.mimeType "mp4" with
  | true => simp [hm]
  | false =>
    cases ha : strHasSub s.mimeType "m4a" with
    | false => simp [hm, ha]
    | true => exact absurd (h ha) (by simp [hm])

theorem pick_audio_mono (streams : List PipedStream)
    (hpro : ∀ s ∈ streams,
      strHasSub s.mimeType "m4a" = true → strHasSub s.mimeType "mp4" = true) :
    ∀ best bbr, bbr + incumbent_audio_bonus best ≤
      (pick_best_audio_from streams best bbr).2 +
        incumbent_audio_bonus (pick_best_audio_from streams best bbr).1 := by
  induction streams with
  | nil => intro best bbr; exact le_refl _
  | cons s rest ih =>
    intro best bbr
    have hpro_rest : ∀ x ∈ rest,
        strHasSub x.mimeType "m4a" = true → strHasSub x.mimeType "mp4" = true :=
      fun x hx => hpro x (List.mem_cons_of_mem _ hx)
    rw [pick_best_audio_from]
    by_cases hu : s.url.isSome = true
    · rw [if_pos hu]
      dsimp only
      by_cases hc : bbr + incumbent_audio_bonus best <
          s.bitrate.getD 0 + audio_mime_bonus s.mimeType
      · rw [if_pos hc]
        have hb := audio_bonus_eq_of_m4a_implies_mp4 s
          (hpro s (List.mem_cons_self _ _))
        have hstep : bbr + incumbent_audio_bonus best ≤
            s.bitrate.getD 0 + incumbent_audio_bonus (some s) := by
          rw [← hb]; exact le_of_lt hc
        exact le_trans hstep (ih hpro_rest (some s) (s.bitrate.getD 0))
      · rw [if_neg hc]
        exact ih hpro_rest best bbr
    · rw [if_neg hu]
      exact ih hpro_rest best bbr

theorem pick_audio_dominates (streams : List PipedStream)
    (hpro : ∀ s ∈ streams,
      strHasSub s.mimeType "m4a" = true → strHasSub s.mimeType "mp4" = true) :
    ∀ best bbr s, s ∈ streams → s.url.isSome = true →
      audio_score s ≤ (pick_best_audio_from streams best bbr).2 +
        incumbent_audio_bonus (pick_best_audio_from streams best bbr).1 := by
  induction streams with
  | nil => intro best bbr s hs; cases hs
  | cons a rest ih =>
    intro best bbr s hs hu
    have hpro_rest : ∀ x ∈ rest,
        strHasSub x.mimeType "m4a" = true → strHasSub x.mimeType "mp4" = true :=
      fun x hx => hpro x (List.mem_cons_of_mem _ hx)
    rw [pick_best_audio_from]
    rcases List.mem_cons.mp hs with rfl | hmem
    · rw [if_pos hu]
      dsimp only
      by_cases hc : bbr + incumbent_audio_bonus best <
          s.bitrate.getD 0 + audio_mime_bonus s.mimeType
      · rw [if_pos hc]
        have hb := audio_bonus_eq_of_m4a_implies_mp4 s
          (hpro s (List.mem_cons_self _ _))
        have hbase : audio_score s ≤
            s.bitrate.getD 0 + incumbent_audio_bonus (some s) := by
          rw [audio_score, ← hb]
        exact le_trans hbase (pick_audio_mono rest hpro_rest (some s) _)
      · rw [if_neg hc]
        have hbase : audio_score s ≤ bbr + incumbent_audio_bonus best := by
          rw [audio_score]; exact le_of_not_lt hc
        exact le_trans hbase (pick_audio_mono rest hpro_rest best bbr)
    · by_cases hau : a.url.isSome = true
      · rw [if_pos hau]
        dsimp only
        by_cases hc : bbr + incumbent_audio_bonus best <
            a.bitrate.getD 0 + audio_mime_bonus a.mimeType
        · rw [if_pos hc]
          exact ih hpro_rest (some a) _ s hmem hu
        · rw [if_neg hc]
          exact ih hpro_rest best bbr s hmem hu
      · rw [if_neg hau]
        exact ih hpro_rest best bbr s hmem hu

theorem pick_audio_acc (streams : List PipedStream) :
    ∀ best bbr, (∀ b, best = some b → bbr = b.bitrate.getD 0) →
      ∀ b, (pick_best_audio_from streams best bbr).1 = some b →
        (pick_best_audio_from streams best bbr).2 = b.bitrate.getD 0 ∧
        (b ∈ streams ∨ best = some b) := by
  induction streams with
  | nil =>
    intro best bbr hacc b hb
    exact ⟨hacc b hb, Or.inr hb⟩
  | cons a rest ih =>
    intro best bbr hacc b hb
    rw [pick_best_audio_from] at hb
    by_cases hau : a.url.isSome = true
    · rw [if_pos hau] at hb
      dsimp only at hb
      by_cases hc : bbr + incumbent_audio_bonus best <
          a.bitrate.getD 0 + audio_mime_bonus a.mimeType
      · rw [if_pos hc] at hb
        obtain ⟨hval, hmem⟩ := ih (some a) (a.bitrate.getD 0)
          (fun x hx => by cases hx; rfl) b hb
        refine ⟨?_, ?_⟩
        · rw [pick_best_audio_from, if_pos hau]
          dsimp only
          rw [if_pos hc]
          exact hval
        · rcases hmem with hm | hm
          · exact Or.inl (List.mem_cons_of_mem _ hm)
          · cases hm
            exact Or.inl (List.mem_cons_self _ _)
      · rw [if_neg hc] at hb
        obtain ⟨hval, hmem⟩ := ih best bbr hacc b hb
        refine ⟨?_, ?_⟩
        · rw [pick_best_audio_from, if_pos hau]
          dsimp only
          rw [if_neg hc]
          exact hval
        · rcases hmem with hm | hm
          · exact Or.inl (List.mem_cons_of_mem _ hm)
          · exact Or.inr hm
    · rw [if_neg hau] at hb
      obtain ⟨hval, hmem⟩ := ih best bbr hacc b hb
      refine ⟨?_, ?_⟩
      · rw [pick_best_audio_from, if_neg hau]
        exact hval
      · rcases hmem with hm | hm
        · exact Or.inl (List.mem_cons_of_mem _ hm)
        · exact Or.inr hm

theorem pick_video_mono (mh : Nat) (streams : List PipedStream) :
    ∀ best bscore, bscore ≤ (pick_best_video_from mh streams best bscore).2 := by
  induction streams with
  | nil => intro best bscore; exact le_refl _
  | cons s rest ih =>
    intro best bscore
    rw [pick_best_video_from]
    by_cases hu : s.url.isSome = true
    · rw [if_pos hu]
      by_cases hh : s.height.getD 0 ≤ mh
      · rw [if_pos hh]
        by_cases hc : bscore < (video_score s : Int)
        · rw [if_pos hc]
          exact le_trans (le_of_lt hc) (ih (some s) _)
        · rw [if_neg hc]
          exact ih best bscore
      · rw [if_neg hh]
        exact ih best bscore
    · rw [if_neg hu]
      exact ih best bscore

theorem pick_video_dominates (mh : Nat) (streams : List PipedStream) :
    ∀ best bscore s, s ∈ streams → s.url.isSome = true →
      s.height.getD 0 ≤ mh →
      (video_score s : Int) ≤ (pick_best_video_from mh streams best bscore).2 := by
  induction streams with
  | nil => intro best bscore s hs; cases hs
  | cons a rest ih =>
    intro best bscore s hs hu hh
    rw [pick_best_video_from]
    rcases List.mem_cons.mp hs with rfl | hmem
    · rw [if_pos hu, if_pos hh]
      by_cases hc : bscore < (video_score s : Int)
      · rw [if_pos hc]
        exact pick_video_mono mh rest (some s) _
      · rw [if_neg hc]
        exact le_trans (le_of_not_lt hc) (pick_video_mono mh rest best bscore)
    · by_cases hau : a.url.isSome = true
      · rw [if_pos hau]
        by_cases hah : a.height.getD 0 ≤ mh
        · rw [if_pos hah]
          by_cases hc : bscore < (video_score a : Int)
          · rw [if_pos hc]
            exact ih (some a) _ s hmem hu hh
          · rw [if_neg hc]
            exact ih best bscore s hmem hu hh
        · rw [if_neg hah]
          exact ih best bscore s hmem hu hh
      · rw [if_neg hau]
        exact ih best bscore s hmem hu hh

theorem pick_video_acc (mh : Nat) (streams : List PipedStream) :
    ∀ best bscore,
      (∀ b, best = some b → bscore = (video_score b : Int) ∧
        b.url.isSome = true ∧ b.height.getD 0 ≤ mh) →
      ∀ b, (pick_best_video_from mh streams best bscore).1 = some b →
        (pick_best_video_from mh streams best bscore).2 = (video_score b : Int) ∧
        (b ∈ streams ∨ best = some b) ∧
        b.url.isSome = true ∧ b.height.getD 0 ≤ mh := by
  induction streams with
  | nil =>
    intro best bscore hacc b hb
    obtain ⟨h1, h2, h3⟩ := hacc b hb
    exact ⟨h1, Or.inr hb, h2, h3⟩
  | cons a rest ih =>
    intro best bscore hacc b hb
    rw [pick_best_video_from] at hb
    by_cases hau : a.url.isSome = true
    · rw [if_pos hau] at hb
      by_cases hah : a.height.getD 0 ≤ mh
      · rw [if_pos hah] at hb
        by_cases hc : bscore < (video_score a : Int)
        · rw [if_pos hc] at hb
          obtain ⟨hval, hmem, hq⟩ := ih (some a) _
            (fun x hx => by cases hx; exact ⟨rfl, hau, hah⟩) b hb
          refine ⟨?_, ?_, hq⟩
          · rw [pick_best_video_from, if_pos hau, if_pos hah, if_pos hc]
            exact hval
          · rcases hmem with hm | hm
            · exact Or.inl (List.mem_cons_of_mem _ hm)
            · cases hm
              exact Or.inl (List.mem_cons_self _ _)
        · rw [if_neg hc] at hb
          obtain ⟨hval, hmem, hq⟩ := ih best bscore hacc b hb
          refine ⟨?_, ?_, hq⟩
          · rw [pick_best_video_from, if_pos hau, if_pos hah, if_neg hc]
            exact hval
          · rcases hmem with hm | hm
            · exact Or.inl (List.mem_cons_of_mem _ hm)
            · exact Or.inr hm
      · rw [if_neg hah] at hb
        obtain ⟨hval, hmem, hq⟩ := ih best bscore hacc b hb
        refine ⟨?_, ?_, hq⟩
        · rw [pick_best_video_from, if_pos hau, if_neg hah]
          exact hval
        · rcases hmem with hm | hm
          · exact Or.inl (List.mem_cons_of_mem _ hm)
          · exact Or.inr hm
    · rw [if_neg hau] at hb
      obtain ⟨hval, hmem, hq⟩ := ih best bscore hacc b hb
      refine ⟨?_, ?_, hq⟩
      · rw [pick_best_video_from, if_neg hau]
        exact hval
      · rcases hmem with hm | hm
        · exact Or.inl (List.mem_cons_of_mem _ hm)
        · exact Or.inr hm

theorem pick_video_skip_all (mh : Nat) (streams : List PipedStream) :
    ∀ best bscore,
      (∀ s ∈ streams, s.url.isSome = true → ¬ s.height.getD 0 ≤ mh) →
      pick_best_video_from mh streams best bscore = (best, bscore) := by
  induction streams with
  | nil => intro best bscore _; rfl
  | cons a rest ih =>
    intro best bscore hall
    rw [pick_best_video_from]
    have hrest : ∀ s ∈ rest, s.url.isSome = true → ¬ s.height.getD 0 ≤ mh :=
      fun s hs => hall s (List.mem_cons_of_mem _ hs)
    by_cases hau : a.url.isSome = true
    · rw [if_pos hau, if_neg (hall a (List.mem_cons_self _ _) hau)]
      exact ih best bscore hrest
    · rw [if_neg hau]
      exact ih best bscore hrest

/-- C6 amended: audio-only requests perform no video selection; absence of a
qualifying video candidate (with a URL and height within the quality
ceiling) yields null without error; a chosen video candidate maximizes
(height x 100 + frame rate + container bonus) over the qualifying
candidates; and the chosen audio candidate maximizes
(bitrate + container bonus) provided every candidate whose container marks
m4a also marks mp4 — the incumbent side of the code comparison grants the
bonus only for mp4, so an m4a-only container is favored as a challenger but
not defended as an incumbent (see the counterexample). -/
theorem c6_amended_selection (info : PipedInfo) (quality : String) :
    (get_best_stream_urls info quality true).1 = none ∧
    ((∀ s ∈ info.videoStreams, s.url.isSome = true →
        ¬ s.height.getD 0 ≤ height_map quality) →
      (get_best_stream_urls info quality false).1 = none) ∧
    (∀ u, (get_best_stream_urls info quality false).1 = some u →
      ∃ b, b ∈ info.videoStreams ∧ b.url = some u ∧
        b.height.getD 0 ≤ height_map quality ∧
        ∀ s ∈ info.videoStreams, s.url.isSome = true →
          s.height.getD 0 ≤ height_map quality → video_score s ≤ video_score b) ∧
    ((∀ s ∈ info.audioStreams, strHasSub s.mimeType "m4a" = true →
        strHasSub s.mimeType "mp4" = true) →
      ∀ u, (get_best_stream_urls info quality true).2 = some u →
        ∃ b, b ∈ info.audioStreams ∧ b.url = some u ∧
          ∀ s ∈ info.audioStreams, s.url.isSome = true →
            audio_score s ≤ audio_score b) := by
  refine ⟨rfl, ?_, ?_, ?_⟩
  · intro hall
    show (pick_best_video info.videoStreams (height_map quality)).bind
      (fun s => s.url) = none
    rw [pick_best_video,
      pick_video_skip_all (height_map quality) info.videoStreams none (-1) hall]
    rfl
  · intro u hu
    have hu' : (pick_best_video info.videoStreams (height_map quality)).bind
        (fun s => s.url) = some u := hu
    obtain ⟨b, hb, hurl⟩ := Option.bind_eq_some.mp hu'
    rw [pick_best_video] at hb
    obtain ⟨hval, hmem, hq1, hq2⟩ := pick_video_acc (height_map quality)
      info.videoStreams none (-1) (fun x hx => Option.noConfusion hx) b hb
    rcases hmem with hm | hm
    · refine ⟨b, hm, hurl, hq2, ?_⟩
      intro s hs hsu hsh
      have hd := pick_video_dominates (height_map quality) info.videoStreams
        none (-1) s hs hsu hsh
      rw [hval] at hd
      exact_mod_cast hd
    · exact Option.noConfusion hm
  · intro hpro u hu
    have hu' : (pick_best_audio info.audioStreams).bind
        (fun s => s.url) = some u := hu
    obtain ⟨b, hb, hurl⟩ := Option.bind_eq_some.mp hu'
    rw [pick_best_audio] at hb
    obtain ⟨hval, hmem⟩ := pick_audio_acc info.audioStreams none 0
      (fun x hx => Option.noConfusion hx) b hb
    rcases hmem with hm | hm
    · refine ⟨b, hm, hurl, ?_⟩
      intro s hs hsu
      have hd := pick_audio_dominates info.audioStreams hpro none 0 s hs hsu
      rw [hval, hb] at hd
      rw [audio_score, ← audio_bonus_eq_of_m4a_implies_mp4 b (hpro b hm)] at hd
      exact hd
    · exact Option.noConfusion hm

/-- C6 amended witness: audio-only selection returns no video URL; an empty
qualifying-video set yields null; and with mp4-container candidates the
chosen audio stream maximizes the audio score. -/
theorem c6_amended_selection_witness :
    (get_best_stream_urls c6_info2 "best" true).1 = none ∧
    (get_best_stream_urls c6_info "best" false).1 = none ∧
    (∃ b, b ∈ c6_info2.audioStreams ∧ b.url = some "https://a.example/aac" ∧
      ∀ s ∈ c6_info2.audioStreams, s.url.isSome = true →
        audio_score s ≤ audio_score b) := by
  refine ⟨(c6_amended_selection c6_info2 "best").1,
          (c6_amended_selection c6_info "best").2.1 ?_,
          (c6_amended_selection c6_info2 "best").2.2.2 ?_ "https://a.example/aac" ?_⟩
  · intro s hs
    have hs0 : s ∈ ([] : List PipedStream) := hs
    cases hs0
  · decide
  · decide
